import Mathlib

/-!
Shallow embedding of `src/kubernetes/statefulset.rs` of the pangolin repository,
together with the pieces of the data model the statefulset code depends on
(error taxonomy, label-selector building, pod-IP resolution) that live in source
files not provided with the repository snapshot; those are modelled from the
design document and say so in their doc comments.
-/

namespace Pangolin

/-- Error taxonomy. Modelled from the spec: the error enum lives in `src/error.rs`,
which is not among the provided sources; §7 of the design document gives the taxonomy.
The `Kube`, `KubeSpec` and `JsonSerialization` snafu contexts used by
`src/kubernetes/statefulset.rs` correspond to `TransportError`, `SpecFieldMissing`
and `SerializationError` respectively. -/
inductive Error where
  | TransportError
  | SpecFieldMissing
  | AnnotationMalformed
  | SerializationError
deriving DecidableEq, Repr

/-- Modelled from the spec: `ANNOTATION_BASE` is declared in `src/resource.rs`, which is
not among the provided sources. The design document only ever uses it as an opaque
prefix `<annotation-base>`, so its concrete value is immaterial to every claim. -/
def ANNOTATION_BASE : String := "pangolin"

/-- The reserved metadata key, `format!("\x7b\x7d/last_modified", ANNOTATION_BASE)`
in the source. -/
def lastModifiedKey : String := ANNOTATION_BASE ++ "/last_modified"

/-- Civil (calendar) reading of a UTC instant: the fields chrono renders and parses.
chrono's year is signed and unbounded in principle; the embedding restricts attention
to years 0-9999, the exact range RFC3339's fixed four-digit year can carry. -/
structure CivilDateTime where
  year : Nat
  month : Nat
  day : Nat
  hour : Nat
  minute : Nat
  second : Nat
  nano : Nat
deriving DecidableEq, Repr

def isLeapYear (y : Nat) : Bool := (y % 4 == 0 && y % 100 != 0) || y % 400 == 0

def daysInMonth (y m : Nat) : Nat :=
  if m = 2 then (if isLeapYear y then 29 else 28)
  else if m = 4 ∨ m = 6 ∨ m = 9 ∨ m = 11 then 30
  else 31

def validDate (y m d : Nat) : Bool :=
  decide (1 ≤ m) && decide (m ≤ 12) && decide (1 ≤ d) && decide (d ≤ daysInMonth y m)

def validTime (h mi s nano : Nat) : Bool :=
  decide (h ≤ 23) && decide (mi ≤ 59) && decide (s ≤ 59) && decide (nano < 1000000000)

/-- Validity of a civil date-time as a model of a `DateTime<Utc>` value renderable in
RFC3339's four-digit-year format (leap-second readings, which chrono encodes with
`nano ≥ 10^9`, are outside the model). -/
def validDT (dt : CivilDateTime) : Bool :=
  validDate dt.year dt.month dt.day
    && validTime dt.hour dt.minute dt.second dt.nano
    && decide (dt.year ≤ 9999)

/-- ASCII digit character for a digit value. -/
def digitChar (d : Nat) : Char := Char.ofNat (48 + d)

def pad2 (n : Nat) : List Char := [digitChar (n / 10), digitChar (n % 10)]

def pad3 (n : Nat) : List Char :=
  [digitChar (n / 100), digitChar (n / 10 % 10), digitChar (n % 10)]

def pad4 (n : Nat) : List Char :=
  [digitChar (n / 1000), digitChar (n / 100 % 10), digitChar (n / 10 % 10), digitChar (n % 10)]

def pad6 (n : Nat) : List Char := pad3 (n / 1000) ++ pad3 (n % 1000)

def pad9 (n : Nat) : List Char := pad3 (n / 1000000) ++ pad3 (n / 1000 % 1000) ++ pad3 (n % 1000)

/-- Fractional-second part of chrono's `to_rfc3339` (`SecondsFormat::AutoSi`):
no fraction when the nanosecond field is zero, otherwise a dot followed by
3, 6 or 9 digits depending on the finest nonzero unit. -/
def fracChars (nano : Nat) : List Char :=
  if nano = 0 then []
  else if nano % 1000000 = 0 then '.' :: pad3 (nano / 1000000)
  else if nano % 1000 = 0 then '.' :: pad6 (nano / 1000)
  else '.' :: pad9 nano

/-- Embedding of chrono's `DateTime<Utc>::to_rfc3339()` (as called at
src/kubernetes/statefulset.rs line 156): `SecondsFormat::AutoSi`, offset written
as `+00:00` rather than `Z`. -/
def toRFC3339 (dt : CivilDateTime) : List Char :=
  pad4 dt.year ++ '-' ::
    (pad2 dt.month ++ '-' ::
      (pad2 dt.day ++ 'T' ::
        (pad2 dt.hour ++ ':' ::
          (pad2 dt.minute ++ ':' ::
            (pad2 dt.second ++
              (fracChars dt.nano ++ ['+', '0', '0', ':', '0', '0']))))))

def isDigitCh (c : Char) : Bool := 48 ≤ c.toNat && c.toNat ≤ 57

def digitVal (c : Char) : Nat := c.toNat - 48

/-- Parse exactly two ASCII digits. -/
def parse2 : List Char → Option (Nat × List Char)
  | c1 :: c2 :: cs =>
    if isDigitCh c1 && isDigitCh c2 then some (digitVal c1 * 10 + digitVal c2, cs) else none
  | _ => none

/-- Parse exactly four ASCII digits. -/
def parse4 : List Char → Option (Nat × List Char)
  | c1 :: c2 :: c3 :: c4 :: cs =>
    if isDigitCh c1 && isDigitCh c2 && isDigitCh c3 && isDigitCh c4 then
      some (((digitVal c1 * 10 + digitVal c2) * 10 + digitVal c3) * 10 + digitVal c4, cs)
    else none
  | _ => none

def expectCh (e : Char) : List Char → Option (List Char)
  | [] => none
  | c :: cs => if c = e then some cs else none

/-- Longest prefix of ASCII digits, as digit values. -/
def takeDigits : List Char → List Nat × List Char
  | [] => ([], [])
  | c :: cs =>
    if isDigitCh c then (digitVal c :: (takeDigits cs).1, (takeDigits cs).2)
    else ([], c :: cs)

def digitsToNat (ds : List Nat) : Nat := ds.foldl (fun a d => a * 10 + d) 0

/-- Optional fractional seconds: a dot followed by at least one digit; the first nine
digits carry nanosecond weight (as in chrono's fraction item). No dot parses as zero
nanoseconds and consumes nothing. -/
def parseFrac : List Char → Option (Nat × List Char)
  | [] => some (0, [])
  | c :: cs =>
    if c = '.' then
      if (takeDigits cs).1.length = 0 then none
      else
        some (digitsToNat ((takeDigits cs).1.take 9)
            * 10 ^ (9 - min (takeDigits cs).1.length 9), (takeDigits cs).2)
    else some (0, c :: cs)

def parseOffsetHM (sign : Int) (cs : List Char) : Option (Int × List Char) :=
  match parse2 cs with
  | none => none
  | some (h, cs1) =>
    match expectCh ':' cs1 with
    | none => none
    | some cs2 =>
      match parse2 cs2 with
      | none => none
      | some (m, cs3) =>
        if h ≤ 23 ∧ m ≤ 59 then some (sign * (h * 60 + m), cs3) else none

/-- Numeric time-zone offset (minutes east of UTC) or `Z`/`z`. -/
def parseOffset : List Char → Option (Int × List Char)
  | [] => none
  | c :: cs =>
    if c = 'Z' ∨ c = 'z' then some (0, cs)
    else if c = '+' then parseOffsetHM 1 cs
    else if c = '-' then parseOffsetHM (-1) cs
    else none

/-- Embedding of chrono's `DateTime::<FixedOffset>::parse_from_rfc3339` (as called at
src/kubernetes/statefulset.rs line 119): fixed-width date and time fields, optional
fractional seconds, mandatory offset, whole input consumed, calendar fields validated.
Returns the civil reading together with the offset in minutes. -/
def parseRFC3339 (cs : List Char) : Option (CivilDateTime × Int) :=
  (parse4 cs).bind fun (y, cs1) =>
  (expectCh '-' cs1).bind fun cs2 =>
  (parse2 cs2).bind fun (mo, cs3) =>
  (expectCh '-' cs3).bind fun cs4 =>
  (parse2 cs4).bind fun (d, cs5) =>
  (expectCh 'T' cs5).bind fun cs6 =>
  (parse2 cs6).bind fun (h, cs7) =>
  (expectCh ':' cs7).bind fun cs8 =>
  (parse2 cs8).bind fun (mi, cs9) =>
  (expectCh ':' cs9).bind fun cs10 =>
  (parse2 cs10).bind fun (s, cs11) =>
  (parseFrac cs11).bind fun (nano, cs12) =>
  (parseOffset cs12).bind fun (off, cs13) =>
  if cs13 = [] ∧ validDate y mo d = true ∧ validTime h mi s nano = true then
    some (⟨y, mo, d, h, mi, s, nano⟩, off)
  else none

/-- Days since 1970-01-01 of a civil date (Howard Hinnant's `days_from_civil`);
used to place a civil reading on the timeline, as chrono's internal representation
does. All divisions act on non-negative operands for years ≥ 0, so the division
convention is immaterial in the range the model uses. -/
def daysFromCivil (y m d : Int) : Int :=
  let y2 := if m ≤ 2 then y - 1 else y
  let era := (if 0 ≤ y2 then y2 else y2 - 399) / 400
  let yoe := y2 - era * 400
  let mp := (m + 9) % 12
  let doy := (153 * mp + 2) / 5 + d - 1
  let doe := yoe * 365 + yoe / 4 - yoe / 100 + doy
  era * 146097 + doe - 719468

/-- Timeline position (nanoseconds since the Unix epoch) of a civil UTC reading;
the model of a `DateTime<Utc>` value. -/
def civilToNanos (dt : CivilDateTime) : Int :=
  (daysFromCivil dt.year dt.month dt.day * 86400
      + dt.hour * 3600 + dt.minute * 60 + dt.second) * 1000000000
    + dt.nano

/-- The `kube::api::ObjectMeta` fields the statefulset code reads (`name` at line 107
and 169, `annotations` at lines 113-116); the remaining fields are never consulted.
The `BTreeMap<String, String>` of the metadata is carried as its entry list. -/
structure ObjectMeta where
  name : String
  annotations : List (String × String)
deriving DecidableEq, Repr

/-- The pod-template metadata of `StatefulSetSpec.template` (`labels` read at
lines 138-146). -/
structure PodTemplateMeta where
  labels : Option (List (String × String))
deriving DecidableEq, Repr

structure PodTemplateSpec where
  metadata : Option PodTemplateMeta
deriving DecidableEq, Repr

/-- The `k8s_openapi` `StatefulSetSpec` fields the code reads: `replicas : Option<i32>`
(lines 130-135) and the pod template (lines 137-146). -/
structure StatefulSetSpec where
  replicas : Option Int
  template : PodTemplateSpec
deriving DecidableEq, Repr

/-- An `i32` value is in range. -/
def i32InRange (r : Int) : Prop := -(2 ^ 31) ≤ r ∧ r < 2 ^ 31

/-- Handle for one StatefulSet object: the `KubernetesStatefulSetObject` struct
(lines 81-86) without the opaque `kube_config` client-session value (§6: an opaque
configuration value, never inspected by the core). -/
structure KubernetesStatefulSetObject where
  namespace_ : String
  metadata : ObjectMeta
  spec : StatefulSetSpec
deriving DecidableEq, Repr

/-- Embedding of `KubernetesStatefulSetObject::last_modified` (lines 110-128).
The outer `Option` layer is the process state: `none` denotes the panic raised by the
`.unwrap()` at line 120 when `parse_from_rfc3339` fails; `some` a normal return.
On a successful parse the code builds `DateTime::from_utc(parsed.naive_utc(), Utc)`,
whose timeline position is the parsed civil reading shifted back by the parsed offset. -/
def last_modified (metadata : ObjectMeta) : Option (Except Error (Option Int)) :=
  match metadata.annotations.lookup lastModifiedKey with
  | none => some (.ok none)
  | some v =>
    match parseRFC3339 v.data with
    | none => none
    | some (dt, off) => some (.ok (some (civilToNanos dt - off * 60 * 1000000000)))

/-- Embedding of `KubernetesStatefulSetObject::replicas` (lines 130-135). The stored
`spec.replicas` is an `i32`; `replicas as u32` is Rust's wrapping integer cast,
i.e. reduction modulo `2^32` into the unsigned range. -/
def replicas (spec : StatefulSetSpec) : Except Error Nat :=
  match spec.replicas with
  | none => .error .SpecFieldMissing
  | some r => .ok ((r % (2 ^ 32 : Int)).toNat)

/-- Pod lifecycle phase (§3 of the design document: a closed five-value set). -/
inductive PodPhase where
  | Pending
  | Running
  | Succeeded
  | Failed
  | Unknown
deriving DecidableEq, Repr

/-- One pod record of the pod-list response, as §3 describes it. -/
structure PodRecord where
  name : String
  phase : PodPhase
  ip : Option String
deriving DecidableEq, Repr

/-- Modelled from the spec: `get_running_pod_ips` lives in `src/kubernetes/common.rs`,
which is not among the provided sources. §4.4: it lists pods in the namespace filtered
by the labels and retains only records whose phase is Running and whose IP is assigned
and non-empty. The outcome of the pod-list request is passed in as `pods`
(`Except.error` = failed request, surfaced as `TransportError`).
`runningIp` is the per-record selection: the record's IP when the pod's phase is
Running and the IP is assigned and non-empty. -/
def runningIp (p : PodRecord) : Option String :=
  match p.ip with
  | some ip => if p.phase = PodPhase.Running ∧ ip ≠ "" then some ip else none
  | none => none

def get_running_pod_ips (pods : Except Unit (List PodRecord)) : Except Error (List String) :=
  match pods with
  | .error _ => .error .TransportError
  | .ok ps => .ok (ps.filterMap runningIp)

/-- Embedding of `KubernetesStatefulSetObject::pod_ips` (lines 137-149). `resolver`
stands for the call to `get_running_pod_ips` with the freshly built API client; the
code passes it the handle's namespace and the pod-template labels. -/
def pod_ips (resolver : String → List (String × String) → Except Error (List String))
    (o : KubernetesStatefulSetObject) : Except Error (List String) :=
  match o.spec.template.metadata with
  | none => .error .SpecFieldMissing
  | some md =>
    match md.labels with
    | none => .error .SpecFieldMissing
    | some labels => resolver o.namespace_ labels

/-- JSON values as `serde_json` builds them for the patch body (lines 153-162):
strings, integers and string-keyed objects are the only shapes the patch uses. -/
inductive Json where
  | str : String → Json
  | num : Int → Json
  | obj : List (String × Json) → Json
deriving Repr

/-- Hexadecimal digit character. -/
def hexDigitChar (n : Nat) : Char :=
  if n < 10 then Char.ofNat (48 + n) else Char.ofNat (87 + n)

/-- serde_json's string escaping: quote and backslash get a backslash escape, control
characters below 0x20 get their short escape or a `\u00XX` escape, everything else is
emitted verbatim. -/
def escapeChar (c : Char) : List Char :=
  if c = '"' then ['\\', '"']
  else if c = '\\' then ['\\', '\\']
  else if c.toNat < 32 then
    if c = Char.ofNat 8 then ['\\', 'b']
    else if c = Char.ofNat 9 then ['\\', 't']
    else if c = Char.ofNat 10 then ['\\', 'n']
    else if c = Char.ofNat 12 then ['\\', 'f']
    else if c = Char.ofNat 13 then ['\\', 'r']
    else ['\\', 'u', '0', '0', hexDigitChar (c.toNat / 16), hexDigitChar (c.toNat % 16)]
  else [c]

def encodeString (s : String) : List Char :=
  '"' :: s.data.foldr (fun c r => escapeChar c ++ r) ['"']

mutual

/-- The character stream `serde_json::to_vec` produces for a `Json` value
(compact form, no whitespace). -/
def encodeJson : Json → List Char
  | .str s => encodeString s
  | .num n => (toString n).data
  | .obj kvs => Char.ofNat 123 :: encodeMembers kvs ++ [Char.ofNat 125]

def encodeMembers : List (String × Json) → List Char
  | [] => []
  | [(k, v)] => encodeString k ++ ':' :: encodeJson v
  | (k, v) :: kvs => encodeString k ++ ':' :: encodeJson v ++ ',' :: encodeMembers kvs

end

/-- The string `utc_now.to_rfc3339()` that `scale` stamps into the reserved
metadata entry (line 156). -/
def scaleTimestampValue (now : CivilDateTime) : String :=
  String.mk (toRFC3339 now)

/-- The patch body the `json!` macro builds at lines 153-162: the reserved
last-modified entry stamped with `utc_now.to_rfc3339()` and the target replica
count, in one value. -/
def buildPatch (now : CivilDateTime) (replicas : Nat) : Json :=
  .obj
    [("metadata",
        .obj [("annotations", .obj [(lastModifiedKey, .str (scaleTimestampValue now))])]),
     ("spec", .obj [("replicas", .num replicas)])]

/-- Field access in a JSON object value. -/
def Json.getField (j : Json) (k : String) : Option Json :=
  match j with
  | .obj kvs => kvs.lookup k
  | _ => none

/-- Metadata of an object whose reserved entry was last written by this core's own
`scale` stamping `now`: the state `last_modified` reads back after a successful
`scale` call. -/
def stampedMeta (nm : String) (now : CivilDateTime) : ObjectMeta :=
  ⟨nm, [(lastModifiedKey, scaleTimestampValue now)]⟩

/-- `serde_json::to_vec` on the patch value (line 171). Serialization of a `Json`
value is total: `to_vec` fails only for maps with non-string keys or non-finite
floats, which this value space cannot represent; the `Except` layer keeps the
`JsonSerialization { }` error wiring of the source visible. -/
def serdeToVec (j : Json) : Except Unit (List Char) := .ok (encodeJson j)

/-- Embedding of `KubernetesStatefulSetObject::scale` (lines 151-176). `now` is the
civil UTC reading of `Utc::now()` at the call; `patchApi` is the API server's response
to a patch request, indexed by the encoded body. The second component of the result is
the list of patch-request bodies the call issues, in order. -/
def scale (patchApi : List Char → Except Unit Unit) (now : CivilDateTime)
    (replicas : Nat) : Except Error Unit × List (List Char) :=
  match serdeToVec (buildPatch now replicas) with
  | .error _ => (.error .SerializationError, [])
  | .ok body =>
    match patchApi body with
    | .error _ => (.error .TransportError, [body])
    | .ok _ => (.ok (), [body])

/-- One StatefulSet object of the list response: the metadata and spec the loop at
lines 66-75 passes to `KubernetesStatefulSetObject::new`. -/
structure StatefulSet where
  metadata : ObjectMeta
  spec : StatefulSetSpec
deriving DecidableEq, Repr

/-- The `KubernetesObject` enum, restricted to the variant the provided source
constructs. -/
inductive KubernetesObject where
  | StatefulSet : KubernetesStatefulSetObject → KubernetesObject
deriving DecidableEq, Repr

/-- Embedding of `KubernetesResourceTrait::list` for `KubernetesStatefulSetResource`
(lines 54-77): `response` is the API server's reply to the single list request
(`Except.error` = failed request, surfaced through the `Kube` context); on success the
loop wraps every returned object into a handle for the resource's namespace. -/
def list (response : Except Unit (List StatefulSet)) (namespace_ : String) :
    Except Error (List KubernetesObject) :=
  match response with
  | .error _ => .error .TransportError
  | .ok sts => .ok (sts.map fun st => .StatefulSet ⟨namespace_, st.metadata, st.spec⟩)

/-- Ordering of label entries by key. -/
def keyLe (a b : String × String) : Prop := a.1 ≤ b.1

instance : DecidableRel keyLe := fun a b => inferInstanceAs (Decidable (a.1 ≤ b.1))

instance : IsTotal (String × String) keyLe := ⟨fun a b => le_total a.1 b.1⟩

instance : IsTrans (String × String) keyLe := ⟨fun _ _ _ => le_trans⟩

/-- Strict ordering of label entries by key. -/
def keyLt (a b : String × String) : Prop := a.1 < b.1

instance : IsAntisymm (String × String) keyLt :=
  ⟨fun _ _ h1 h2 => absurd h2 (lt_asymm h1)⟩

/-- Modelled from the spec: `build_label_selector` lives in `src/kubernetes/common.rs`,
which is not among the provided sources. §4.1: the selector joins `key=value` pairs
with commas, keys in sorted order; a label map is represented as its entry list
(unique keys). -/
def build_label_selector (matchLabels : List (String × String)) : String :=
  String.intercalate (",")
    ((List.insertionSort keyLe matchLabels).map fun kv => kv.1 ++ "=" ++ kv.2)

/-! Helper lemmas: rendering a digit and reading it back. -/

theorem digit_facts : ∀ d < 10, isDigitCh (digitChar d) = true ∧ digitVal (digitChar d) = d := by
  decide

theorem parse2_pad2 (n : Nat) (h : n < 100) {r : List Char} :
    parse2 (pad2 n ++ r) = some (n, r) := by
  have h1 := (digit_facts (n / 10) (by omega)).1
  have h2 := (digit_facts (n % 10) (by omega)).1
  have v1 := (digit_facts (n / 10) (by omega)).2
  have v2 := (digit_facts (n % 10) (by omega)).2
  simp [pad2, parse2, h1, h2, v1, v2]
  omega

theorem parse4_pad4 (n : Nat) (h : n < 10000) {r : List Char} :
    parse4 (pad4 n ++ r) = some (n, r) := by
  have h1 := (digit_facts (n / 1000) (by omega)).1
  have h2 := (digit_facts (n / 100 % 10) (by omega)).1
  have h3 := (digit_facts (n / 10 % 10) (by omega)).1
  have h4 := (digit_facts (n % 10) (by omega)).1
  have v1 := (digit_facts (n / 1000) (by omega)).2
  have v2 := (digit_facts (n / 100 % 10) (by omega)).2
  have v3 := (digit_facts (n / 10 % 10) (by omega)).2
  have v4 := (digit_facts (n % 10) (by omega)).2
  simp [pad4, parse4, h1, h2, h3, h4, v1, v2, v3, v4]
  omega

theorem expectCh_cons (c : Char) (cs : List Char) : expectCh c (c :: cs) = some cs := by
  simp [expectCh]

theorem takeDigits_digit (d : Nat) (h : d < 10) (cs : List Char) :
    takeDigits (digitChar d :: cs) = (d :: (takeDigits cs).1, (takeDigits cs).2) := by
  simp [takeDigits, (digit_facts d h).1, (digit_facts d h).2]

theorem takeDigits_plus (cs : List Char) : takeDigits ('+' :: cs) = ([], '+' :: cs) := by
  simp [takeDigits, show isDigitCh '+' = false from by decide]

theorem takeDigits_pad3 (n : Nat) (h : n < 1000) (cs : List Char) :
    takeDigits (pad3 n ++ cs)
      = (n / 100 :: n / 10 % 10 :: n % 10 :: (takeDigits cs).1, (takeDigits cs).2) := by
  simp [pad3, takeDigits_digit (n / 100) (by omega), takeDigits_digit (n / 10 % 10) (by omega),
    takeDigits_digit (n % 10) (by omega)]

theorem parseFrac_fracChars (nano : Nat) (h : nano < 1000000000) {cs : List Char} :
    parseFrac (fracChars nano ++ '+' :: cs) = some (nano, '+' :: cs) := by
  by_cases h0 : nano = 0
  · subst h0
    simp [fracChars, parseFrac, show ¬('+' = '.') from by decide]
  · by_cases h3 : nano % 1000000 = 0
    · simp [fracChars, h0, h3, parseFrac, takeDigits_pad3 (nano / 1000000) (by omega),
        takeDigits_plus, digitsToNat]
      omega
    · by_cases h6 : nano % 1000 = 0
      · simp [fracChars, h0, h3, h6, parseFrac, pad6, List.append_assoc,
          takeDigits_pad3 (nano / 1000 / 1000) (by omega),
          takeDigits_pad3 (nano / 1000 % 1000) (by omega),
          takeDigits_plus, digitsToNat]
        omega
      · simp [fracChars, h0, h3, h6, parseFrac, pad9, List.append_assoc,
          takeDigits_pad3 (nano / 1000000) (by omega),
          takeDigits_pad3 (nano / 1000 % 1000) (by omega),
          takeDigits_pad3 (nano % 1000) (by omega),
          takeDigits_plus, digitsToNat]
        omega

theorem parseOffset_zero (cs : List Char) :
    parseOffset ('+' :: '0' :: '0' :: ':' :: '0' :: '0' :: cs) = some (0, cs) := by
  simp [parseOffset, parseOffsetHM, parse2, expectCh,
    show ¬('+' = 'Z' ∨ '+' = 'z') from by decide, show isDigitCh '0' = true from by decide,
    show digitVal '0' = 0 from by decide]

theorem daysInMonth_le (y m : Nat) : daysInMonth y m ≤ 31 := by
  unfold daysInMonth
  split_ifs <;> omega

/-- Round trip at the heart of the annotation contract: the RFC3339 text chrono renders
for a valid civil UTC reading is accepted by the RFC3339 parser and parses back to the
same reading with a zero offset. -/
theorem parseRFC3339_toRFC3339 (dt : CivilDateTime) (h : validDT dt = true) :
    parseRFC3339 (toRFC3339 dt) = some (dt, 0) := by
  have hum : dt.year ≤ 9999 ∧ validDate dt.year dt.month dt.day = true
      ∧ validTime dt.hour dt.minute dt.second dt.nano = true := by
    unfold validDT at h
    simp [Bool.and_eq_true, decide_eq_true_eq] at h
    exact ⟨h.2, by simp [Bool.and_eq_true, decide_eq_true_eq, h.1.1], by
      simp [Bool.and_eq_true, decide_eq_true_eq, h.1.2]⟩
  obtain ⟨hy, hvd, hvt⟩ := hum
  have hdm := daysInMonth_le dt.year dt.month
  have hbounds : dt.month ≤ 12 ∧ dt.day ≤ 31 ∧ dt.hour ≤ 23 ∧ dt.minute ≤ 59
      ∧ dt.second ≤ 59 ∧ dt.nano < 1000000000 := by
    unfold validDate at hvd
    unfold validTime at hvt
    simp [Bool.and_eq_true, decide_eq_true_eq] at hvd hvt
    omega
  simp only [toRFC3339, parseRFC3339, parse4_pad4 dt.year (by omega),
    parse2_pad2 dt.month (by omega), parse2_pad2 dt.day (by omega),
    parse2_pad2 dt.hour (by omega), parse2_pad2 dt.minute (by omega),
    parse2_pad2 dt.second (by omega), expectCh_cons,
    parseFrac_fracChars dt.nano (by omega), parseOffset_zero, Option.bind]
  simp [hvd, hvt]

/-- A metadata value stamped by this core's own `scale` never takes the panic path of
`last_modified`: the annotation parses back to the instant that was stamped. -/
theorem last_modified_stamped (nm : String) (dt : CivilDateTime) (h : validDT dt = true) :
    last_modified (stampedMeta nm dt) = some (.ok (some (civilToNanos dt))) := by
  have hp := parseRFC3339_toRFC3339 dt h
  simp [last_modified, stampedMeta, scaleTimestampValue, List.lookup, hp]

/-- Characterization of the per-record selection of the pod-IP resolver. -/
theorem runningIp_eq_some (p : PodRecord) (ip : String) :
    runningIp p = some ip ↔ p.phase = PodPhase.Running ∧ p.ip = some ip ∧ ip ≠ "" := by
  rcases hip : p.ip with _ | x
  · simp [runningIp, hip]
  · by_cases hc : p.phase = PodPhase.Running ∧ x ≠ ""
    · simp only [runningIp, hip, if_pos hc, Option.some.injEq]
      constructor
      · rintro rfl
        exact ⟨hc.1, rfl, hc.2⟩
      · rintro ⟨_, hx, _⟩
        exact hx
    · simp only [runningIp, hip, if_neg hc]
      constructor
      · rintro ⟨⟩
      · rintro ⟨hr, hx, hne⟩
        obtain rfl := Option.some.inj hx
        exact absurd ⟨hr, hne⟩ hc

/-- Upgrading a key-sorted list with pairwise-distinct keys to strict key sortedness. -/
theorem pairwise_keyLt {l : List (String × String)} (hs : l.Pairwise keyLe)
    (hn : l.Pairwise fun a b => a.1 ≠ b.1) : l.Pairwise keyLt := by
  induction l with
  | nil => exact List.Pairwise.nil
  | cons a t ih =>
    rcases List.pairwise_cons.1 hs with ⟨h1, h2⟩
    rcases List.pairwise_cons.1 hn with ⟨h3, h4⟩
    exact List.pairwise_cons.2 ⟨fun b hb => lt_of_le_of_ne (h1 b hb) (h3 b hb), ih h2 h4⟩

/-- Two entry lists holding the same label map (same entries, unique keys) sort to the
same key-ordered list. -/
theorem insertionSort_eq_of_perm {m1 m2 : List (String × String)}
    (hnd : (m1.map Prod.fst).Nodup) (hp : m1.Perm m2) :
    List.insertionSort keyLe m1 = List.insertionSort keyLe m2 := by
  have s1 := List.sorted_insertionSort keyLe m1
  have s2 := List.sorted_insertionSort keyLe m2
  have p1 : List.Perm (List.insertionSort keyLe m1) m1 := List.perm_insertionSort keyLe m1
  have p2 : List.Perm (List.insertionSort keyLe m2) m2 := List.perm_insertionSort keyLe m2
  have hperm : List.Perm (List.insertionSort keyLe m1) (List.insertionSort keyLe m2) :=
    p1.trans (hp.trans p2.symm)
  have hn1 : ((List.insertionSort keyLe m1).map Prod.fst).Nodup :=
    ((p1.map Prod.fst).nodup_iff).2 hnd
  have hn2 : ((List.insertionSort keyLe m2).map Prod.fst).Nodup :=
    ((hperm.map Prod.fst).nodup_iff).1 hn1
  exact List.eq_of_perm_of_sorted hperm
    (pairwise_keyLt s1 ((List.pairwise_map).1 hn1))
    (pairwise_keyLt s2 ((List.pairwise_map).1 hn2))

/-- C1: the claim states that a present-but-malformed last-modified value makes
`lastModified()` return the `AnnotationMalformed` error and never terminates the
process. The code instead calls `.unwrap()` on the failed parse (line 120) and panics:
on a handle whose reserved entry holds `"not-a-timestamp"` the run denotes `none`
(the panic), not a returned `AnnotationMalformed` error. -/
theorem c1_last_modified_panics_on_malformed :
    last_modified ⟨"db-0", [(lastModifiedKey, "not-a-timestamp")]⟩ = none := by
  rfl

/-- C2: `scale(N)` issues exactly one patch request; its body sets `spec.replicas`
to `N` and the reserved last-modified entry to the current UTC time rendered in
RFC3339, both in the same request; serializing the body always succeeds (so the
`SerializationError` branch cannot be taken for this body), the call fails with
`TransportError` exactly when the API request fails, and returns success otherwise. -/
theorem c2_scale_contract (patchApi : List Char → Except Unit Unit) (now : CivilDateTime)
    (n : Nat) :
    (scale patchApi now n).2 = [encodeJson (buildPatch now n)]
    ∧ (Option.bind ((buildPatch now n).getField ("spec")) fun j => j.getField ("replicas"))
        = some (.num n)
    ∧ (Option.bind (Option.bind ((buildPatch now n).getField ("metadata")) fun j =>
          j.getField ("annotations")) fun j => j.getField lastModifiedKey)
        = some (.str (scaleTimestampValue now))
    ∧ serdeToVec (buildPatch now n) = .ok (encodeJson (buildPatch now n))
    ∧ (patchApi (encodeJson (buildPatch now n)) = .ok () → (scale patchApi now n).1 = .ok ())
    ∧ ∀ e, patchApi (encodeJson (buildPatch now n)) = .error e →
        (scale patchApi now n).1 = .error .TransportError := by
  refine ⟨?_, rfl, rfl, rfl, ?_, ?_⟩
  · cases hres : patchApi (encodeJson (buildPatch now n)) <;>
      simp [scale, serdeToVec, hres]
  · intro h
    simp [scale, serdeToVec, h]
  · intro e h
    simp [scale, serdeToVec, h]

/-- C2 witness: a concrete successful call issues the one expected request and
returns success. -/
theorem c2_scale_contract_witness :
    (scale (fun _ => .ok ()) ⟨2020, 1, 2, 3, 4, 5, 6⟩ 5).1 = .ok ()
    ∧ (scale (fun _ => .ok ()) ⟨2020, 1, 2, 3, 4, 5, 6⟩ 5).2
        = [encodeJson (buildPatch ⟨2020, 1, 2, 3, 4, 5, 6⟩ 5)] :=
  ⟨(c2_scale_contract (fun _ => .ok ()) ⟨2020, 1, 2, 3, 4, 5, 6⟩ 5).2.2.2.2.1 rfl,
    (c2_scale_contract (fun _ => .ok ()) ⟨2020, 1, 2, 3, 4, 5, 6⟩ 5).1⟩

/-- C3: over any pod-list response, the resolver's result contains an IP exactly when
some listed pod is in the Running phase and carries that IP assigned and non-empty;
pods in any other phase, and Running pods without an IP, are never included. -/
theorem c3_pod_ip_filter (ps : List PodRecord) (ip : String) :
    ∃ ips, get_running_pod_ips (.ok ps) = .ok ips
      ∧ (ip ∈ ips ↔ ∃ p ∈ ps, p.phase = PodPhase.Running ∧ p.ip = some ip ∧ ip ≠ "") := by
  refine ⟨_, rfl, ?_⟩
  rw [List.mem_filterMap]
  exact exists_congr fun p => and_congr_right fun _ => runningIp_eq_some p ip

/-- C3 witness: the spec's scenario 4, two Running pods with IPs and one Pending pod. -/
theorem c3_pod_ip_filter_witness :
    ∃ ips,
      get_running_pod_ips
          (.ok [⟨"db-0", .Running, some "10.0.0.1"⟩, ⟨"db-1", .Running, some "10.0.0.2"⟩,
            ⟨"db-2", .Pending, none⟩])
        = .ok ips
      ∧ ("10.0.0.1" ∈ ips ↔ ∃ p ∈ [(⟨"db-0", .Running, some "10.0.0.1"⟩ : PodRecord),
            ⟨"db-1", .Running, some "10.0.0.2"⟩, ⟨"db-2", .Pending, none⟩],
          p.phase = PodPhase.Running ∧ p.ip = some "10.0.0.1" ∧ "10.0.0.1" ≠ "") :=
  c3_pod_ip_filter
    [⟨"db-0", .Running, some "10.0.0.1"⟩, ⟨"db-1", .Running, some "10.0.0.2"⟩,
      ⟨"db-2", .Pending, none⟩] "10.0.0.1"

/-- C5: `replicas()` returns the declared replica count when `spec.replicas` is
present (as an unsigned integer; the data model's invariant makes the stored `i32`
non-negative, and `C10` covers the out-of-model negative case), and fails with
`SpecFieldMissing` when the field is absent. -/
theorem c5_replicas_contract (spec : StatefulSetSpec) :
    (spec.replicas = none → replicas spec = .error .SpecFieldMissing)
    ∧ ∀ r : Int, spec.replicas = some r → 0 ≤ r → r < 2 ^ 31 →
        replicas spec = .ok r.toNat := by
  constructor
  · intro h
    simp [replicas, h]
  · intro r h h0 h31
    rw [show ((2 : Int) ^ 31) = 2147483648 from by norm_num] at h31
    simp [replicas, h]
    omega

/-- C5 witness: the absent case and a present count of five. -/
theorem c5_replicas_contract_witness :
    replicas ⟨none, ⟨none⟩⟩ = .error .SpecFieldMissing
    ∧ replicas ⟨some 5, ⟨none⟩⟩ = .ok (5 : Int).toNat :=
  ⟨(c5_replicas_contract ⟨none, ⟨none⟩⟩).1 rfl,
    (c5_replicas_contract ⟨some 5, ⟨none⟩⟩).2 5 rfl (by norm_num) (by norm_num)⟩

/-- C6: `podIPs()` fails with `SpecFieldMissing` when the pod-template metadata or its
labels are absent, and otherwise delegates to the resolver with exactly the handle's
namespace and the pod-template labels. -/
theorem c6_pod_ips_contract
    (resolver : String → List (String × String) → Except Error (List String))
    (o : KubernetesStatefulSetObject) :
    (o.spec.template.metadata = none → pod_ips resolver o = .error .SpecFieldMissing)
    ∧ (∀ md, o.spec.template.metadata = some md → md.labels = none →
        pod_ips resolver o = .error .SpecFieldMissing)
    ∧ ∀ md labels, o.spec.template.metadata = some md → md.labels = some labels →
        pod_ips resolver o = resolver o.namespace_ labels := by
  refine ⟨fun h => by simp [pod_ips, h], fun md h1 h2 => by simp [pod_ips, h1, h2],
    fun md labels h1 h2 => by simp [pod_ips, h1, h2]⟩

/-- C6 witness: a handle with no template metadata fails, a handle with labels
delegates with its namespace. -/
theorem c6_pod_ips_contract_witness :
    pod_ips (fun _ _ => .ok []) ⟨"prod", ⟨"db", []⟩, ⟨none, ⟨none⟩⟩⟩
        = .error .SpecFieldMissing
    ∧ pod_ips (fun ns _ => .ok [ns]) ⟨"prod", ⟨"db", []⟩, ⟨none, ⟨some ⟨some []⟩⟩⟩⟩
        = .ok ["prod"] :=
  ⟨(c6_pod_ips_contract (fun _ _ => .ok []) ⟨"prod", ⟨"db", []⟩, ⟨none, ⟨none⟩⟩⟩).1 rfl,
    (c6_pod_ips_contract (fun ns _ => .ok [ns])
        ⟨"prod", ⟨"db", []⟩, ⟨none, ⟨some ⟨some []⟩⟩⟩⟩).2.2 ⟨some []⟩ [] rfl rfl⟩

/-- C4: the selector built from a label map joins `key=value` pairs with commas with
the keys in sorted order (the built string is the comma-join of a key-sorted
rearrangement of the map's entries), depends only on the map's contents and not on
any insertion or iteration order, and is empty for the empty map. -/
theorem c4_build_label_selector (m1 m2 : List (String × String))
    (hnd : (m1.map Prod.fst).Nodup) (hp : m1.Perm m2) :
    build_label_selector m1 = build_label_selector m2
    ∧ build_label_selector [] = ""
    ∧ ∃ l, List.Perm l m1 ∧ l.Pairwise keyLe
        ∧ build_label_selector m1
            = String.intercalate (",") (l.map fun kv => kv.1 ++ "=" ++ kv.2) := by
  refine ⟨?_, rfl, List.insertionSort keyLe m1, List.perm_insertionSort keyLe m1,
    List.sorted_insertionSort keyLe m1, rfl⟩
  unfold build_label_selector
  rw [insertionSort_eq_of_perm hnd hp]

/-- C4 witness: the spec's scenario 1 map in two different entry orders. -/
theorem c4_build_label_selector_witness :
    build_label_selector [("tier", "web"), ("app", "foo")]
      = build_label_selector [("app", "foo"), ("tier", "web")]
    ∧ build_label_selector [("tier", "web"), ("app", "foo")] = "app=foo,tier=web" :=
  ⟨(c4_build_label_selector [("tier", "web"), ("app", "foo")]
      [("app", "foo"), ("tier", "web")] (by decide) (by decide)).1, by
    simp +decide [build_label_selector, List.insertionSort, List.orderedInsert, keyLe,
      String.intercalate, String.intercalate.go]⟩

/-- C7: `list()` returns an empty sequence (not an error) when the response holds no
matching objects, fails with `TransportError` exactly when the list request fails,
and otherwise returns one handle per listed object, wrapping that object's metadata
and spec with the resource's namespace. -/
theorem c7_list_contract (response : Except Unit (List StatefulSet)) (ns : String) :
    (response = .ok [] → list response ns = .ok [])
    ∧ (∀ e, response = .error e → list response ns = .error .TransportError)
    ∧ ∀ sts, response = .ok sts →
        list response ns
          = .ok (sts.map fun st => .StatefulSet ⟨ns, st.metadata, st.spec⟩)
          ∧ ∃ objs, list response ns = .ok objs ∧ objs.length = sts.length := by
  refine ⟨fun h => by simp [list, h], fun e h => by simp [list, h], fun sts h => ?_⟩
  subst h
  refine ⟨rfl, ⟨_, rfl, ?_⟩⟩
  simp [list]

/-- C7 witness: an empty response yields the empty sequence and a failed request
yields `TransportError`. -/
theorem c7_list_contract_witness :
    list (.ok []) "prod" = .ok [] ∧ list (.error ()) "prod" = .error .TransportError :=
  ⟨(c7_list_contract (.ok []) "prod").1 rfl, (c7_list_contract (.error ()) "prod").2.1 () rfl⟩

/-- C8: across two successive successful `scale()` calls on the same object — the
second stamping a current time no earlier than the first — the last-modified
timestamps read back from the stamped metadata are non-decreasing. -/
theorem c8_scale_timestamps_monotone (nm : String) (t1 t2 : CivilDateTime)
    (h1 : validDT t1 = true) (h2 : validDT t2 = true)
    (hle : civilToNanos t1 ≤ civilToNanos t2) :
    ∃ n1 n2 : Int,
      last_modified (stampedMeta nm t1) = some (.ok (some n1))
      ∧ last_modified (stampedMeta nm t2) = some (.ok (some n2))
      ∧ n1 ≤ n2 :=
  ⟨civilToNanos t1, civilToNanos t2, last_modified_stamped nm t1 h1,
    last_modified_stamped nm t2 h2, hle⟩

/-- C8 witness: two stamps one second apart. -/
theorem c8_scale_timestamps_monotone_witness :
    ∃ n1 n2 : Int,
      last_modified (stampedMeta ("db-0") ⟨2020, 1, 1, 0, 0, 0, 0⟩) = some (.ok (some n1))
      ∧ last_modified (stampedMeta ("db-0") ⟨2020, 1, 1, 0, 0, 1, 0⟩) = some (.ok (some n2))
      ∧ n1 ≤ n2 :=
  c8_scale_timestamps_monotone ("db-0") ⟨2020, 1, 1, 0, 0, 0, 0⟩ ⟨2020, 1, 1, 0, 0, 1, 0⟩
    (by decide) (by decide) (by decide)

/-- C9: the annotation string `scale()` writes (the instant rendered with
`to_rfc3339`) is accepted by the RFC3339 parser used in `last_modified()` and parses
back to the same instant with zero offset, so a handle stamped by this core's own
`scale` can never take the malformed-timestamp path. -/
theorem c9_rfc3339_roundtrip (nm : String) (dt : CivilDateTime) (h : validDT dt = true) :
    parseRFC3339 (scaleTimestampValue dt).data = some (dt, 0)
    ∧ last_modified (stampedMeta nm dt) = some (.ok (some (civilToNanos dt))) :=
  ⟨parseRFC3339_toRFC3339 dt h, last_modified_stamped nm dt h⟩

/-- C9 witness: a stamp with a full nanosecond-precision fraction parses back. -/
theorem c9_rfc3339_roundtrip_witness :
    parseRFC3339 (scaleTimestampValue ⟨2021, 6, 1, 12, 30, 45, 123456789⟩).data
        = some (⟨2021, 6, 1, 12, 30, 45, 123456789⟩, 0)
    ∧ last_modified (stampedMeta ("db-0") ⟨2021, 6, 1, 12, 30, 45, 123456789⟩)
        = some (.ok (some (civilToNanos ⟨2021, 6, 1, 12, 30, 45, 123456789⟩))) :=
  c9_rfc3339_roundtrip ("db-0") ⟨2021, 6, 1, 12, 30, 45, 123456789⟩ (by decide)

/-- C10: `replicas as u32` is a wrapping cast: for a stored negative count `-k` the
call succeeds with `2^32 - k` instead of failing, silently reinterpreting the value
modulo `2^32`. -/
theorem c10_replicas_wrapping (tmpl : PodTemplateSpec) (k : Nat)
    (h1 : 0 < k) (h2 : k ≤ 2 ^ 31) :
    replicas ⟨some (-(k : Int)), tmpl⟩ = .ok (2 ^ 32 - k) := by
  rw [show ((2 : Nat) ^ 31) = 2147483648 from by norm_num] at h2
  rw [show ((2 : Nat) ^ 32) = 4294967296 from by norm_num]
  simp [replicas]
  omega

/-- C10 witness: a stored count of `-1` is reported as `2^32 - 1`. -/
theorem c10_replicas_wrapping_witness :
    replicas ⟨some (-(1 : Nat) : Int), ⟨none⟩⟩ = .ok (2 ^ 32 - 1) :=
  c10_replicas_wrapping ⟨none⟩ 1 (by norm_num) (by norm_num)

end Pangolin
